import Mathlib

/-
Verification of the subscriber-based audio streaming/playback pipeline of the
tts-server repository.

The embedding models, faithfully to the Python source:
  * the per-subscriber bounded frame queue (`queue.Queue` with `put_nowait`
    under a `queue.Full` handler, i.e. the FrameQueue primitive) and the
    drop-newest backpressure policy of the capture callback
    (src/example_of_sd_recording.py, `SoundDeviceAudioStreamAdapter._callback`);
  * the capture hub state (stream handle, subscriber table, monotonic
    subscriber-id counter, frame-sequence counter) and its operations
    `subscribe`, `stop`, `_close_subscriber`, `_callback`, and the reader
    operation `_QueueReader.read`;
  * the playback adapter's `_load_wav_file` / `play_file`
    (src/tts_server/adapters/audio/sounddevice.py) over an explicit model of
    the file system;
  * the orchestrator `SynthPlayService.synthesize_and_play`
    (src/tts_server/services/synth_play.py), parameterised over the outcomes
    of the TTS engine, the playback adapter and the state callback.

Machine integers do not overflow in the modelled paths (Python ints are
arbitrary precision), so counters are `Nat`/`Int`; durations, computed by real
division in Python, are modelled as `ℚ`.
-/

/-- One captured audio block plus its hub-wide sequence number
(`AudioFrame(data=arr, format=..., sequence=seq)`; the format is fixed per hub
and irrelevant to the claims, the data buffer is a copied value). -/
structure AudioFrame where
  data : List Int
  sequence : Nat
deriving DecidableEq, Repr

/-- The per-subscriber bounded buffer: a Python `queue.Queue(maxsize=capacity)`
holding its buffered frames in FIFO order (head = next to be popped). -/
structure FrameQueue where
  capacity : Nat
  frames : List AudioFrame
deriving DecidableEq, Repr

/-- `sub.queue.put_nowait(frame)` under the callback's `except queue.Full`
handler: if the queue is below capacity the frame is appended at the tail,
otherwise `queue.Full` is caught and the incoming frame is dropped
(the buffered frames are untouched).  Non-blocking by construction. -/
def FrameQueue.push (q : FrameQueue) (f : AudioFrame) : FrameQueue :=
  if q.frames.length < q.capacity then { q with frames := q.frames ++ [f] } else q

/-- The `_Subscriber` dataclass: diagnostic name, bounded queue, closed flag. -/
structure Subscriber where
  name : String
  queue : FrameQueue
  closed : Bool
deriving DecidableEq, Repr

/-- The mutable state of `SoundDeviceAudioStreamAdapter`: whether a hardware
input stream is held (`_stream is not None`), the `_next_subscriber_id`
counter, the `_subscribers` table (a Python dict in insertion order, keyed by
subscriber id), and the `_frame_sequence` counter. -/
structure HubState where
  streamOpen : Bool
  nextSubscriberId : Nat
  subscribers : List (Nat × Subscriber)
  frameSequence : Nat
deriving DecidableEq, Repr

/-- The adapter state right after `__init__`. -/
def initialHub : HubState :=
  { streamOpen := false, nextSubscriberId := 1, subscribers := [], frameSequence := 0 }

/-- `self._subscribers.get(subscriber_id)` (`_get_subscriber`). -/
def lookupSubscriber (s : HubState) (subscriberId : Nat) : Option Subscriber :=
  (s.subscribers.find? (fun p => p.1 = subscriberId)).map (fun p => p.2)

/-- `subscribe(name, max_frames)`: clamps the capacity to
`max(1, int(max_frames))`, allocates the next monotonic subscriber id, and
inserts a fresh open subscriber with an empty queue.  Returns the new state
and the id the returned `_QueueReader` is bound to.  Total: no value of
`max_frames` is rejected. -/
def HubState.subscribe (s : HubState) (name : String) (maxFrames : Int) :
    HubState × Nat :=
  let maxsize := (max 1 maxFrames).toNat
  let subscriberId := s.nextSubscriberId
  ({ s with
      nextSubscriberId := subscriberId + 1,
      subscribers := s.subscribers ++
        [(subscriberId,
          { name := name, queue := { capacity := maxsize, frames := [] },
            closed := false })] },
   subscriberId)

/-- Outcome of one `_QueueReader.read` call in the sequential model (no
producer runs during the call): a frame, the no-data sentinel `None`, or the
call blocks (only `queue.get()` with no timeout on an empty queue does). -/
inductive ReadResult where
  | got (f : AudioFrame)
  | noData
  | blocked
deriving DecidableEq, Repr

/-- Replace the buffered frames of one subscriber (the effect of a successful
`queue.get...` on the hub state). -/
def setSubscriberFrames (s : HubState) (subscriberId : Nat)
    (frames : List AudioFrame) : HubState :=
  { s with
      subscribers := s.subscribers.map (fun p =>
        if p.1 = subscriberId then
          (p.1, { p.2 with queue := { p.2.queue with frames := frames } })
        else p) }

/-- `_QueueReader.read(timeout_seconds)`: a missing or closed subscriber gives
`None`; otherwise `timeout_seconds = None` is `queue.get()` (blocks until an
item is available — on an empty queue the call blocks), `timeout_seconds = 0`
is `get_nowait()` (immediate `queue.Empty` becomes `None`), and any other
timeout is `queue.get(timeout=max(t, 0.0))` (bounded wait, then `queue.Empty`
becomes `None`; with no producer during the call an empty queue yields
`None`). -/
def QueueReader.read (s : HubState) (subscriberId : Nat)
    (timeoutSeconds : Option ℚ) : ReadResult × HubState :=
  match lookupSubscriber s subscriberId with
  | Option.none => (ReadResult.noData, s)
  | Option.some sub =>
    if sub.closed then (ReadResult.noData, s)
    else
      match sub.queue.frames, timeoutSeconds with
      | f :: rest, _ => (ReadResult.got f, setSubscriberFrames s subscriberId rest)
      | [], Option.none => (ReadResult.blocked, s)
      | [], Option.some _ => (ReadResult.noData, s)

/-- The mutation `_close_subscriber` (and `stop`) applies to a popped
subscriber object: `closed = True` and the queue drained empty. -/
def Subscriber.closeAndDrain (sub : Subscriber) : Subscriber :=
  { sub with closed := true, queue := { sub.queue with frames := [] } }

/-- `_close_subscriber(subscriber_id)`: `self._subscribers.pop(id, None)`; a
missing id is a no-op, otherwise the entry leaves the table (the popped object
is then marked closed and drained, see `Subscriber.closeAndDrain`). -/
def HubState.closeSubscriber (s : HubState) (subscriberId : Nat) : HubState :=
  match lookupSubscriber s subscriberId with
  | Option.none => s
  | Option.some _ =>
    { s with subscribers := s.subscribers.filter (fun p => p.1 != subscriberId) }

/-- A hardware `stream.stop()` / `stream.close()` call, which may fail. -/
def streamStopCall (fails : Bool) : Except String Unit :=
  if fails then Except.error "device error" else Except.ok ()

/-- The final states of the subscriber objects that `stop()` marks closed and
drains before clearing the table. -/
def HubState.stopDrainedSubscribers (s : HubState) : List (Nat × Subscriber) :=
  s.subscribers.map (fun p => (p.1, p.2.closeAndDrain))

/-- `stop()`: under the lock the stream handle is dropped, every subscriber is
marked closed and its queue drained (their final object states are
`stopDrainedSubscribers`), and the table is cleared.  Outside the lock
`stream.stop()` and `stream.close()` are each wrapped in
`try/except Exception: logger.exception(...)`, so a hardware failure is
swallowed in every combination and teardown completes. -/
def HubState.stop (s : HubState) (stopFails closeFails : Bool) : HubState :=
  let cleared : HubState := { s with streamOpen := false, subscribers := [] }
  match streamStopCall stopFails with
  | Except.ok _ =>
    match streamStopCall closeFails with
    | Except.ok _ => cleared
    | Except.error _ => cleared
  | Except.error _ =>
    match streamStopCall closeFails with
    | Except.ok _ => cleared
    | Except.error _ => cleared

/-- `start()`: no-op if a stream is already held, otherwise resets the frame
sequence and opens the hardware stream. -/
def HubState.start (s : HubState) : HubState :=
  if s.streamOpen then s else { s with streamOpen := true, frameSequence := 0 }

/-- The per-subscriber delivery step of `_callback`: a closed subscriber is
skipped (`continue`), any other subscriber gets `put_nowait(frame)` with the
`queue.Full` drop handler.  A pure function of the frame and that
subscriber's own entry alone. -/
def deliverFrame (frame : AudioFrame) (p : Nat × Subscriber) : Nat × Subscriber :=
  if p.2.closed then p else (p.1, { p.2 with queue := p.2.queue.push frame })

/-- `_callback(indata, ...)`: copies the raw buffer into a frame stamped with
the current sequence number, increments the sequence, snapshots the subscriber
table, and delivers the frame to each snapshotted subscriber independently. -/
def HubState.callback (s : HubState) (indata : List Int) : HubState :=
  let frame : AudioFrame := { data := indata, sequence := s.frameSequence }
  { s with
      frameSequence := s.frameSequence + 1,
      subscribers := s.subscribers.map (deliverFrame frame) }

/-- The administrative and capture operations of the hub, for whole-lifetime
properties. -/
inductive HubOp where
  | subscribeOp (name : String) (maxFrames : Int)
  | closeOp (subscriberId : Nat)
  | stopOp
  | startOp
  | callbackOp (indata : List Int)

/-- Apply one operation; `subscribeOp` also yields the issued subscriber id. -/
def HubState.applyOp (s : HubState) (op : HubOp) : HubState × Option Nat :=
  match op with
  | HubOp.subscribeOp name maxFrames =>
    let r := s.subscribe name maxFrames
    (r.1, Option.some r.2)
  | HubOp.closeOp subscriberId => (s.closeSubscriber subscriberId, Option.none)
  | HubOp.stopOp => (s.stop false false, Option.none)
  | HubOp.startOp => (s.start, Option.none)
  | HubOp.callbackOp indata => (s.callback indata, Option.none)

/-- The subscriber ids handed out along an operation sequence, in order. -/
def issuedIds (s : HubState) : List HubOp → List Nat
  | [] => []
  | op :: rest =>
    match s.applyOp op with
    | (s', Option.some subscriberId) => subscriberId :: issuedIds s' rest
    | (s', Option.none) => issuedIds s' rest

/-- Primitive operations a thread can apply to one `queue.Queue`. -/
inductive QueueOp where
  | put (f : AudioFrame)
  | tryGet
deriving DecidableEq, Repr

/-- The operations `_close_subscriber` (and `stop`) perform on one
subscriber's queue: the drain loop calls `get_nowait()` once per buffered
frame and once more until `queue.Empty` breaks the loop; no put of any kind
occurs. -/
def queueDrainOps (sub : Subscriber) : List QueueOp :=
  List.replicate (sub.queue.frames.length + 1) QueueOp.tryGet

/-- Python `queue.Queue` semantics: a consumer blocked in `get()` with no
timeout on an empty queue is released exactly when some put makes an item
available; `get_nowait()` calls from other threads never release it. -/
def wakesBlockedGet (ops : List QueueOp) : Bool :=
  ops.any (fun op => match op with
    | QueueOp.put _ => true
    | QueueOp.tryGet => false)

/-- `SynthPlayState`: the orchestrator's four observable states. -/
inductive SynthPlayState where
  | synthesizing
  | playing
  | completed
  | error
deriving DecidableEq, Repr

/-- The fields of `TTSResponse` the orchestrator consumes. -/
structure TTSResponse where
  audioData : List Int
  sampleRate : Nat
  channels : Nat
deriving DecidableEq, Repr

/-- `PlaybackStatus` as produced by the modelled paths (`is_playing`,
`duration_seconds`). -/
structure PlaybackStatus where
  isPlaying : Bool
  durationSeconds : ℚ
deriving DecidableEq, Repr

/-- Observable outcome of one `synthesize_and_play` call: the `(state,
message)` pairs the state callback was invoked with, in order; whether
`self._audio.play` was invoked; and the returned status or the exception that
propagates to the caller.  `E` is the (opaque) exception type. -/
structure SynthPlayRun (E : Type) where
  notifications : List (SynthPlayState × String)
  playbackInvoked : Bool
  result : Except E PlaybackStatus
deriving Repr

/-- The inner `notify` helper: when a callback was supplied it is invoked with
`(state, message)` — recorded in the trace — and may itself raise
(`notifyFail state`); with no callback nothing happens. -/
def notifyCall {E : Type} (hasCallback : Bool)
    (notifyFail : SynthPlayState → Option E) (st : SynthPlayState)
    (msg : String) : List (SynthPlayState × String) × Option E :=
  if hasCallback then ([(st, msg)], notifyFail st) else ([], Option.none)

/-- The `except Exception as e:` block of `synthesize_and_play`: it runs
`await notify(ERROR, str(e))` and then `raise`.  If that notify itself raises
`f`, the `raise` statement is never reached and `f` — not the original `e` —
propagates to the caller. -/
def synthPlayHandleError {E : Type} (hasCallback : Bool)
    (notifyFail : SynthPlayState → Option E) (describe : E → String)
    (trace : List (SynthPlayState × String)) (invoked : Bool) (e : E) :
    SynthPlayRun E :=
  let n := notifyCall hasCallback notifyFail SynthPlayState.error (describe e)
  match n.2 with
  | Option.some f =>
    { notifications := trace ++ n.1, playbackInvoked := invoked,
      result := Except.error f }
  | Option.none =>
    { notifications := trace ++ n.1, playbackInvoked := invoked,
      result := Except.error e }

/-- `SynthPlayService.synthesize_and_play`, parameterised over the TTS
outcome, the playback outcome, and the callback's behaviour: notify
`SYNTHESIZING` with the 50-character text preview, synthesize, notify
`PLAYING`, play, notify `COMPLETED`, return the final status; any exception
along the way transfers control to `synthPlayHandleError`. -/
def synthesizeAndPlay {E : Type} (describe : E → String) (text : String)
    (ttsResult : Except E TTSResponse)
    (playResult : TTSResponse → Except E PlaybackStatus)
    (hasCallback : Bool) (notifyFail : SynthPlayState → Option E) :
    SynthPlayRun E :=
  let n1 := notifyCall hasCallback notifyFail SynthPlayState.synthesizing
    ("Synthesizing: " ++ text.take 50 ++ "...")
  match n1.2 with
  | Option.some f => synthPlayHandleError hasCallback notifyFail describe n1.1 false f
  | Option.none =>
    match ttsResult with
    | Except.error e => synthPlayHandleError hasCallback notifyFail describe n1.1 false e
    | Except.ok resp =>
      let n2 := notifyCall hasCallback notifyFail SynthPlayState.playing
        "Playing audio..."
      match n2.2 with
      | Option.some f =>
        synthPlayHandleError hasCallback notifyFail describe (n1.1 ++ n2.1) false f
      | Option.none =>
        match playResult resp with
        | Except.error e =>
          synthPlayHandleError hasCallback notifyFail describe (n1.1 ++ n2.1) true e
        | Except.ok st =>
          let n3 := notifyCall hasCallback notifyFail SynthPlayState.completed
            "Playback complete"
          match n3.2 with
          | Option.some f =>
            synthPlayHandleError hasCallback notifyFail describe
              (n1.1 ++ n2.1 ++ n3.1) true f
          | Option.none =>
            { notifications := n1.1 ++ n2.1 ++ n3.1,
              playbackInvoked := true,
              result := Except.ok
                { isPlaying := false, durationSeconds := st.durationSeconds } }

/-- A state callback that succeeds on every notification except `ERROR`,
where it raises — e.g. the notifying channel died right after the synthesis
failure. -/
def errorOnlyNotifyFail : SynthPlayState → Option String :=
  fun st => if st = SynthPlayState.error then Option.some "callback failed"
            else Option.none

/-- One entry of the modelled file system: the path's extension (with dot, as
`pathlib.Path.suffix` yields it) and, when the contents parse as a RIFF/WAV
container, the WAV header data. -/
structure WavFile where
  sampleRate : Nat
  channels : Nat
  sampleWidth : Nat
  nFrames : Nat
deriving DecidableEq, Repr

structure FileEntry where
  suffix : String
  wav : Option WavFile
deriving DecidableEq, Repr

/-- Error kinds of `_load_wav_file`: `FileNotFoundError`, `ValueError`
(wrong extension or unsupported sample width), `wave.Error`. -/
inductive AudioFileError where
  | notFound (msg : String)
  | badFormat (msg : String)
  | waveError
deriving DecidableEq, Repr

/-- `str.lower()` as applied to the path's extension. -/
def lowerString (s : String) : String :=
  String.mk (s.data.map Char.toLower)

/-- `Path(file_path).exists()` plus content access in the file-system model. -/
def findFile (fs : List (String × FileEntry)) (path : String) :
    Option FileEntry :=
  (fs.find? (fun p => p.1 = path)).map (fun p => p.2)

/-- `SoundDevicePlaybackAdapter._load_wav_file`: existence check raising
`FileNotFoundError`; extension check (`path.suffix.lower() == ".wav"`)
raising `ValueError`; `wave.open` (fails with `wave.Error` on a non-WAV
content); dtype selection by sample width (2 → int16, 4 → int32, anything
else `ValueError`); reshape to `(-1, channels)` when multi-channel.  Returns
the length of the resulting array (its row count), the sample rate and the
channel count. -/
def loadWavFile (fs : List (String × FileEntry)) (path : String) :
    Except AudioFileError (Nat × Nat × Nat) :=
  match findFile fs path with
  | Option.none =>
    Except.error (AudioFileError.notFound ("WAV file not found: " ++ path))
  | Option.some entry =>
    if lowerString entry.suffix ≠ ".wav" then
      Except.error (AudioFileError.badFormat
        ("File must have .wav extension: " ++ path))
    else
      match entry.wav with
      | Option.none => Except.error AudioFileError.waveError
      | Option.some wf =>
        if wf.sampleWidth = 2 ∨ wf.sampleWidth = 4 then
          let totalSamples := wf.nFrames * wf.channels
          let arrayLen :=
            if 1 < wf.channels then totalSamples / wf.channels else totalSamples
          Except.ok (arrayLen, wf.sampleRate, wf.channels)
        else
          Except.error (AudioFileError.badFormat
            ("Unsupported sample width: " ++ toString wf.sampleWidth ++ " bytes"))

/-- `_play_sync`: after `sd.play` / `sd.wait`, the returned duration is
`len(audio_array) / sample_rate`. -/
def playDuration (arrayLen sampleRate : Nat) : ℚ :=
  (arrayLen : ℚ) / (sampleRate : ℚ)

/-- `play_file(file_path)`: load the WAV file, play it synchronously on a
worker thread, and return `PlaybackStatus(is_playing=False,
duration_seconds=duration)`; load errors propagate to the caller. -/
def playFile (fs : List (String × FileEntry)) (path : String) :
    Except AudioFileError PlaybackStatus :=
  match loadWavFile fs path with
  | Except.error e => Except.error e
  | Except.ok (arrayLen, sampleRate, _) =>
    Except.ok { isPlaying := false,
                durationSeconds := playDuration arrayLen sampleRate }

/-- The raised error is the "not found" kind (`FileNotFoundError`). -/
def isNotFoundError {α : Type} (r : Except AudioFileError α) : Bool :=
  match r with
  | Except.error (AudioFileError.notFound _) => true
  | _ => false

/-- The raised error is the "wrong format" kind (`ValueError`). -/
def isBadFormatError {α : Type} (r : Except AudioFileError α) : Bool :=
  match r with
  | Except.error (AudioFileError.badFormat _) => true
  | _ => false

/-- Fixture: a file system with a text file and a 2-second mono 16-bit WAV at
22050 Hz. -/
def demoFS : List (String × FileEntry) :=
  [("/tmp/notes.txt", { suffix := ".txt", wav := Option.none }),
   ("/tmp/voice.wav",
    { suffix := ".wav",
      wav := Option.some
        { sampleRate := 22050, channels := 1, sampleWidth := 2,
          nFrames := 44100 } })]

/-- Fixture: an open subscriber buffering one frame. -/
def subOpenWithFrame : Subscriber :=
  { name := "r1", queue := { capacity := 2, frames := [{ data := [7], sequence := 0 }] },
    closed := false }

/-- Fixture: an open subscriber with an empty queue. -/
def subOpenEmpty : Subscriber :=
  { name := "r2", queue := { capacity := 2, frames := [] }, closed := false }

/-- Fixture: a subscriber already marked closed. -/
def subClosed : Subscriber :=
  { name := "r3", queue := { capacity := 2, frames := [] }, closed := true }

/-- Fixture: a running hub with the three subscribers above. -/
def hubA : HubState :=
  { streamOpen := true, nextSubscriberId := 4,
    subscribers := [(1, subOpenWithFrame), (2, subOpenEmpty), (3, subClosed)],
    frameSequence := 1 }

/- ------------------------------------------------------------------ -/
/- Theorems.                                                           -/
/- ------------------------------------------------------------------ -/

theorem FrameQueue.push_of_full (q : FrameQueue) (f : AudioFrame)
    (h : q.capacity ≤ q.frames.length) : q.push f = q := by
  simp [FrameQueue.push, Nat.not_lt.mpr h]

theorem FrameQueue.push_of_room (q : FrameQueue) (f : AudioFrame)
    (h : q.frames.length < q.capacity) :
    (q.push f).frames = q.frames ++ [f] := by
  simp [FrameQueue.push, h]

/-- Pushing a list of frames one after another keeps the first
`capacity - length` of them, in arrival order, after the existing buffer. -/
theorem FrameQueue.foldl_push (fs : List AudioFrame) (q : FrameQueue)
    (h : q.frames.length ≤ q.capacity) :
    (fs.foldl FrameQueue.push q).frames
      = q.frames ++ fs.take (q.capacity - q.frames.length) := by
  induction fs generalizing q with
  | nil => simp
  | cons f rest ih =>
    by_cases hroom : q.frames.length < q.capacity
    · have hstep : q.push f = { q with frames := q.frames ++ [f] } := by
        simp [FrameQueue.push, hroom]
      have hlen : (q.frames ++ [f]).length ≤ q.capacity := by
        simp only [List.length_append, List.length_cons, List.length_nil]
        omega
      have hrec := ih ({ q with frames := q.frames ++ [f] }) hlen
      have htake : q.capacity - q.frames.length
          = (q.capacity - (q.frames ++ [f]).length) + 1 := by
        simp only [List.length_append, List.length_cons, List.length_nil]
        omega
      simp only [List.foldl_cons, hstep, hrec, htake, List.take_succ_cons,
        List.append_assoc, List.singleton_append]
    · have hfull : q.push f = q := by
        simp [FrameQueue.push, hroom]
      have hzero : q.capacity - q.frames.length = 0 := by omega
      have hrec := ih q h
      simp only [List.foldl_cons, hfull, hrec, hzero, List.take_zero,
        List.take_nil]

/-- C1: for a FrameQueue of capacity `K ≥ 1`, pushing `M > K` frames with no
intervening pops keeps exactly the first `K` pushed frames in FIFO order; a
push onto a full queue drops the incoming frame and leaves every buffered
frame in place (nothing is evicted), returning without blocking. -/
theorem frameQueue_drops_newest_beyond_capacity
    (K : Nat) (fs : List AudioFrame) (hK : 0 < K) (hM : K < fs.length) :
    (fs.foldl FrameQueue.push { capacity := K, frames := [] }).frames
        = fs.take K ∧
    ∀ q : FrameQueue, ∀ f : AudioFrame, q.capacity ≤ q.frames.length →
      q.push f = q := by
  constructor
  · have := FrameQueue.foldl_push fs { capacity := K, frames := [] }
      (by simp)
    simpa using this
  · intro q f hfull
    exact FrameQueue.push_of_full q f hfull

theorem frameQueue_drops_newest_beyond_capacity_witness :
    (0 : Nat) < 2 ∧ (2 : Nat) < 3 ∧
    (([⟨[0], 0⟩, ⟨[1], 1⟩, ⟨[2], 2⟩] : List AudioFrame).foldl FrameQueue.push
        { capacity := 2, frames := [] }).frames
      = ([⟨[0], 0⟩, ⟨[1], 1⟩, ⟨[2], 2⟩] : List AudioFrame).take 2 := by
  refine ⟨by decide, by decide, ?_⟩
  exact (frameQueue_drops_newest_beyond_capacity 2
    [⟨[0], 0⟩, ⟨[1], 1⟩, ⟨[2], 2⟩] (by decide) (by decide)).1

/-- C10: `subscribe` accepts every integer `max_frames` (it is total), binds
the returned reader to the freshly issued id, and creates the subscriber with
queue capacity `max(1, int(max_frames))`, so a value below 1 is silently
clamped to capacity 1 rather than rejected. -/
theorem subscribe_clamps_max_frames (s : HubState) (name : String) (m : Int) :
    ((s.subscribe name m).2 = s.nextSubscriberId) ∧
    (((s.subscribe name m).2,
        ({ name := name, queue := { capacity := (max 1 m).toNat, frames := [] },
           closed := false } : Subscriber))
       ∈ (s.subscribe name m).1.subscribers) ∧
    (m ≤ 0 → (max 1 m).toNat = 1) ∧
    (0 < (max 1 m).toNat) := by
  refine ⟨rfl, ?_, ?_, ?_⟩
  · simp [HubState.subscribe]
  · intro hm
    have hmax : max 1 m = 1 := max_eq_left (by omega)
    simp [hmax]
  · have h1 : (1 : Int) ≤ max 1 m := le_max_left _ _
    omega

theorem subscribe_clamps_max_frames_witness :
    ((initialHub.subscribe "w" (-5)).2 = initialHub.nextSubscriberId) ∧
    (max 1 (-5 : Int)).toNat = 1 := by
  obtain ⟨h1, _h2, h3, _h4⟩ := subscribe_clamps_max_frames initialHub "w" (-5)
  exact ⟨h1, h3 (by decide)⟩

theorem applyOp_nextId_le (s : HubState) (op : HubOp) :
    s.nextSubscriberId ≤ (s.applyOp op).1.nextSubscriberId := by
  cases op with
  | subscribeOp name maxFrames =>
    show s.nextSubscriberId ≤ s.nextSubscriberId + 1
    omega
  | closeOp subscriberId =>
    show s.nextSubscriberId ≤ (s.closeSubscriber subscriberId).nextSubscriberId
    unfold HubState.closeSubscriber
    cases lookupSubscriber s subscriberId <;> simp
  | stopOp =>
    simp [HubState.applyOp, HubState.stop, streamStopCall]
  | startOp =>
    show s.nextSubscriberId ≤ s.start.nextSubscriberId
    unfold HubState.start
    split <;> simp
  | callbackOp indata =>
    simp [HubState.applyOp, HubState.callback]

theorem issuedIds_lower (ops : List HubOp) :
    ∀ s : HubState, ∀ x ∈ issuedIds s ops, s.nextSubscriberId ≤ x := by
  induction ops with
  | nil => intro s x hx; simp [issuedIds] at hx
  | cons op rest ih =>
    intro s x hx
    cases op with
    | subscribeOp n m =>
      have hx' : x ∈ (s.subscribe n m).2 :: issuedIds (s.subscribe n m).1 rest := hx
      rcases List.mem_cons.mp hx' with h | h
      · exact le_of_eq h.symm
      · have hrec := ih (s.subscribe n m).1 x h
        have hnext : (s.subscribe n m).1.nextSubscriberId = s.nextSubscriberId + 1 := rfl
        omega
    | closeOp i =>
      exact le_trans (applyOp_nextId_le s (HubOp.closeOp i))
        (ih (s.applyOp (HubOp.closeOp i)).1 x hx)
    | stopOp =>
      exact le_trans (applyOp_nextId_le s HubOp.stopOp)
        (ih (s.applyOp HubOp.stopOp).1 x hx)
    | startOp =>
      exact le_trans (applyOp_nextId_le s HubOp.startOp)
        (ih (s.applyOp HubOp.startOp).1 x hx)
    | callbackOp d =>
      exact le_trans (applyOp_nextId_le s (HubOp.callbackOp d))
        (ih (s.applyOp (HubOp.callbackOp d)).1 x hx)

theorem issuedIds_pairwise (ops : List HubOp) :
    ∀ s : HubState, List.Pairwise (· < ·) (issuedIds s ops) := by
  induction ops with
  | nil => intro s; simp [issuedIds]
  | cons op rest ih =>
    intro s
    cases op with
    | subscribeOp n m =>
      show List.Pairwise (· < ·)
        ((s.subscribe n m).2 :: issuedIds (s.subscribe n m).1 rest)
      refine List.Pairwise.cons ?_ (ih (s.subscribe n m).1)
      intro y hy
      have hlow := issuedIds_lower rest (s.subscribe n m).1 y hy
      have hnext : (s.subscribe n m).1.nextSubscriberId = s.nextSubscriberId + 1 := rfl
      have hid : (s.subscribe n m).2 = s.nextSubscriberId := rfl
      omega
    | closeOp i => exact ih (s.applyOp (HubOp.closeOp i)).1
    | stopOp => exact ih (s.applyOp HubOp.stopOp).1
    | startOp => exact ih (s.applyOp HubOp.startOp).1
    | callbackOp d => exact ih (s.applyOp (HubOp.callbackOp d)).1

/-- C9: along any sequence of hub operations from the initial adapter state —
subscriptions interleaved with closes, stops, starts and capture callbacks —
the subscriber ids issued by `subscribe` are pairwise strictly increasing in
order of issue: every id is strictly greater than every previously issued id,
so no id is ever reused, even after `close()` or `stop()` removed earlier
subscribers. -/
theorem subscriber_ids_never_reused (ops : List HubOp) :
    List.Pairwise (· < ·) (issuedIds initialHub ops) :=
  issuedIds_pairwise ops initialHub

/-- C4: `read` returns the next buffered frame in FIFO order whenever one is
available (advancing the queue), for every timeout value; a missing or closed
subscriber yields the no-data sentinel; on an empty queue `timeout = None`
blocks until a frame arrives, while `timeout = 0` (non-blocking poll) and any
bounded `timeout` return the sentinel instead of blocking. -/
theorem read_fifo_and_timeouts (s : HubState) (subscriberId : Nat)
    (t : Option ℚ) :
    (lookupSubscriber s subscriberId = Option.none →
      QueueReader.read s subscriberId t = (ReadResult.noData, s)) ∧
    (∀ sub, lookupSubscriber s subscriberId = Option.some sub →
      sub.closed = true →
      QueueReader.read s subscriberId t = (ReadResult.noData, s)) ∧
    (∀ sub f rest, lookupSubscriber s subscriberId = Option.some sub →
      sub.closed = false → sub.queue.frames = f :: rest →
      QueueReader.read s subscriberId t
        = (ReadResult.got f, setSubscriberFrames s subscriberId rest)) ∧
    (∀ sub, lookupSubscriber s subscriberId = Option.some sub →
      sub.closed = false → sub.queue.frames = [] → t = Option.none →
      QueueReader.read s subscriberId t = (ReadResult.blocked, s)) ∧
    (∀ sub x, lookupSubscriber s subscriberId = Option.some sub →
      sub.closed = false → sub.queue.frames = [] → t = Option.some x →
      QueueReader.read s subscriberId t = (ReadResult.noData, s)) := by
  refine ⟨?_, ?_, ?_, ?_, ?_⟩
  · intro h
    simp [QueueReader.read, h]
  · intro sub h hc
    simp [QueueReader.read, h, hc]
  · intro sub f rest h hc hf
    simp [QueueReader.read, h, hc, hf]
  · intro sub h hc hf ht
    subst ht
    simp [QueueReader.read, h, hc, hf]
  · intro sub x h hc hf ht
    subst ht
    simp [QueueReader.read, h, hc, hf]

theorem read_fifo_and_timeouts_witness :
    QueueReader.read hubA 9 (Option.some 0) = (ReadResult.noData, hubA) ∧
    QueueReader.read hubA 3 (Option.some 0) = (ReadResult.noData, hubA) ∧
    QueueReader.read hubA 1 Option.none
      = (ReadResult.got { data := [7], sequence := 0 },
         setSubscriberFrames hubA 1 []) ∧
    QueueReader.read hubA 2 Option.none = (ReadResult.blocked, hubA) ∧
    QueueReader.read hubA 2 (Option.some 0) = (ReadResult.noData, hubA) := by
  refine ⟨?_, ?_, ?_, ?_, ?_⟩
  · exact (read_fifo_and_timeouts hubA 9 (Option.some 0)).1 (by decide)
  · exact (read_fifo_and_timeouts hubA 3 (Option.some 0)).2.1 subClosed
      (by decide) (by decide)
  · exact (read_fifo_and_timeouts hubA 1 Option.none).2.2.1 subOpenWithFrame
      { data := [7], sequence := 0 } [] (by decide) (by decide) (by decide)
  · exact (read_fifo_and_timeouts hubA 2 Option.none).2.2.2.1 subOpenEmpty
      (by decide) (by decide) (by decide) rfl
  · exact (read_fifo_and_timeouts hubA 2 (Option.some 0)).2.2.2.2 subOpenEmpty 0
      (by decide) (by decide) (by decide) rfl

theorem stop_eq (s : HubState) (a b : Bool) :
    s.stop a b = { s with streamOpen := false, subscribers := [] } := by
  cases a <;> cases b <;> rfl

/-- C5: `stop()` always takes the hub to the stopped state — the hardware
stream released, every subscriber object marked closed with its queue drained,
and the subscriber table left empty — independently of whether the hardware
`stream.stop()` / `stream.close()` calls fail (those failures are swallowed,
never propagated: `stop` is total and its result does not depend on them); a
second `stop()`, with any failure combination, is an error-free no-op. -/
theorem stop_idempotent_and_total (s : HubState) (a b a2 b2 : Bool) :
    (s.stop a b).subscribers = [] ∧
    (s.stop a b).streamOpen = false ∧
    ((s.stop a b).stop a2 b2 = s.stop a b) ∧
    (s.stop a b = s.stop false false) ∧
    (∀ p ∈ s.stopDrainedSubscribers,
      p.2.closed = true ∧ p.2.queue.frames = []) := by
  refine ⟨?_, ?_, ?_, ?_, ?_⟩
  · rw [stop_eq]
  · rw [stop_eq]
  · simp [stop_eq]
  · simp [stop_eq]
  · intro p hp
    simp only [HubState.stopDrainedSubscribers, List.mem_map] at hp
    obtain ⟨q, _hq, rfl⟩ := hp
    exact ⟨rfl, rfl⟩

theorem stop_idempotent_and_total_witness :
    (hubA.stop true true).subscribers = [] ∧
    (hubA.stop true true).streamOpen = false ∧
    ((hubA.stop true true).stop false true = hubA.stop true true) ∧
    (hubA.stop true true = hubA.stop false false) ∧
    ((1, subOpenWithFrame.closeAndDrain).2.closed = true ∧
     (1, subOpenWithFrame.closeAndDrain).2.queue.frames = []) := by
  obtain ⟨h1, h2, h3, h4, h5⟩ := stop_idempotent_and_total hubA true true false true
  exact ⟨h1, h2, h3, h4, h5 (1, subOpenWithFrame.closeAndDrain) (by decide)⟩

/-- C7: the capture callback maps the snapshotted subscriber table pointwise
through `deliverFrame` with the frame built from the copied buffer and the
current sequence number — so each subscriber's outcome is a function of its
own entry and the frame alone, and a drop at one (full) subscriber cannot
affect delivery to any other; a closed subscriber is skipped unchanged, and
every non-closed subscriber with room receives the frame appended to its
queue. -/
theorem callback_fanout_independent (s : HubState) (indata : List Int) :
    ((s.callback indata).subscribers
        = s.subscribers.map
            (deliverFrame { data := indata, sequence := s.frameSequence })) ∧
    (∀ p : Nat × Subscriber, p.2.closed = true →
      deliverFrame { data := indata, sequence := s.frameSequence } p = p) ∧
    (∀ p : Nat × Subscriber, p.2.closed = false →
      (deliverFrame { data := indata, sequence := s.frameSequence } p).2.queue.frames
        = p.2.queue.frames ++
            (if p.2.queue.frames.length < p.2.queue.capacity
             then [{ data := indata, sequence := s.frameSequence }]
             else ([] : List AudioFrame))) := by
  refine ⟨rfl, ?_, ?_⟩
  · intro p hp
    simp [deliverFrame, hp]
  · intro p hp
    by_cases hroom : p.2.queue.frames.length < p.2.queue.capacity
    · simp [deliverFrame, FrameQueue.push, hp, hroom]
    · simp [deliverFrame, FrameQueue.push, hp, hroom]

theorem callback_fanout_independent_witness :
    ((hubA.callback [5]).subscribers
        = hubA.subscribers.map (deliverFrame { data := [5], sequence := 1 })) ∧
    deliverFrame { data := [5], sequence := 1 } (3, subClosed) = (3, subClosed) ∧
    (deliverFrame { data := [5], sequence := 1 } (1, subOpenWithFrame)).2.queue.frames
      = subOpenWithFrame.queue.frames ++ [{ data := [5], sequence := 1 }] := by
  obtain ⟨h1, h2, h3⟩ := callback_fanout_independent hubA [5]
  refine ⟨h1, h2 (3, subClosed) (by decide), ?_⟩
  have h := h3 (1, subOpenWithFrame) (by decide)
  exact h.trans (by decide)

/-- C3 is violated by the code: with an open subscriber whose queue is empty,
`read(timeout_seconds=None)` enters the blocking `queue.get()`
(`ReadResult.blocked`); `_close_subscriber` then removes the subscriber from
the table and performs only `get_nowait()` drain calls on its queue — an
operation list containing no put, which by `queue.Queue` semantics never
releases a blocked `get()` — and once the entry is gone no later capture
callback can ever put into that queue, so the blocked call never returns the
no-data sentinel; it hangs. -/
theorem close_never_wakes_blocked_reader :
    (QueueReader.read hubA 2 Option.none).1 = ReadResult.blocked ∧
    queueDrainOps subOpenEmpty = [QueueOp.tryGet] ∧
    wakesBlockedGet (queueDrainOps subOpenEmpty) = false ∧
    wakesBlockedGet (queueDrainOps subOpenWithFrame) = false ∧
    lookupSubscriber (hubA.closeSubscriber 2) 2 = Option.none := by
  decide

/-- C2: when the TTS engine's `synthesize` raises `e` and the supplied state
callback notifies normally, `synthesize_and_play` invokes the callback
exactly twice — `SYNTHESIZING` with the 50-character text preview first, then
`ERROR` with the failure's description — never with `PLAYING` or `COMPLETED`,
never invokes playback, and re-raises the same exception `e` to the caller. -/
theorem synth_failure_emits_synthesizing_then_error {E : Type}
    (describe : E → String) (text : String)
    (playResult : TTSResponse → Except E PlaybackStatus) (e : E) :
    synthesizeAndPlay describe text (Except.error e) playResult true
        (fun _ => Option.none)
      = { notifications :=
            [(SynthPlayState.synthesizing,
              "Synthesizing: " ++ text.take 50 ++ "..."),
             (SynthPlayState.error, describe e)],
          playbackInvoked := false,
          result := Except.error e } := by
  rfl

/-- C6 is violated by the code: when synthesis fails with `"synthesis
failed"` and the state callback raises on the `ERROR` notification, the inner
`await notify(ERROR, str(e))` of the except block raises before `raise` runs,
so the exception propagated to the caller is the callback's `"callback
failed"` — the notification failure masks the original synthesis error (with
a well-behaved callback the same call propagates the original). -/
theorem notify_failure_masks_synthesis_error :
    ((synthesizeAndPlay (fun e => e) "hello" (Except.error "synthesis failed")
        (fun _ => Except.ok { isPlaying := false, durationSeconds := 0 })
        true errorOnlyNotifyFail).result
      = Except.error "callback failed") ∧
    ("callback failed" : String) ≠ "synthesis failed" ∧
    ((synthesizeAndPlay (fun e => e) "hello" (Except.error "synthesis failed")
        (fun _ => Except.ok { isPlaying := false, durationSeconds := 0 })
        true (fun _ => Option.none)).result
      = Except.error "synthesis failed") := by
  refine ⟨rfl, by decide, rfl⟩

/-- C8: `play_file` on a non-existent path raises the "not found" kind
(`FileNotFoundError`) before any decoding; on an existing file with a `.txt`
extension it raises the "wrong format" kind (`ValueError`); and on a valid
mono 16-bit WAV at 22050 Hz it returns `is_playing = False` with
`duration_seconds` exactly `n_frames / sample_rate`. -/
theorem playFile_error_kinds_and_duration
    (fs : List (String × FileEntry)) (path : String) :
    (findFile fs path = Option.none →
      isNotFoundError (playFile fs path) = true) ∧
    (∀ entry, findFile fs path = Option.some entry → entry.suffix = ".txt" →
      isBadFormatError (playFile fs path) = true) ∧
    (∀ entry n, findFile fs path = Option.some entry →
      entry.suffix = ".wav" →
      entry.wav = Option.some
        { sampleRate := 22050, channels := 1, sampleWidth := 2, nFrames := n } →
      playFile fs path
        = Except.ok { isPlaying := false, durationSeconds := (n : ℚ) / 22050 }) := by
  refine ⟨?_, ?_, ?_⟩
  · intro h
    simp [playFile, loadWavFile, h, isNotFoundError]
  · intro entry h1 h2
    have htxt : lowerString ".txt" ≠ ".wav" := by decide
    simp [playFile, loadWavFile, h1, h2, htxt, isBadFormatError]
  · intro entry n h1 h2 h3
    have hwav : lowerString ".wav" = ".wav" := by decide
    simp only [playFile, loadWavFile, h1, h2, h3, hwav, ne_eq,
      not_true_eq_false, if_false, Nat.lt_irrefl, mul_one, playDuration]
    norm_num

theorem playFile_error_kinds_and_duration_witness :
    isNotFoundError (playFile demoFS "/tmp/missing.wav") = true ∧
    isBadFormatError (playFile demoFS "/tmp/notes.txt") = true ∧
    playFile demoFS "/tmp/voice.wav"
      = Except.ok { isPlaying := false,
                    durationSeconds := (44100 : ℚ) / 22050 } := by
  refine ⟨?_, ?_, ?_⟩
  · exact (playFile_error_kinds_and_duration demoFS "/tmp/missing.wav").1
      (by decide)
  · exact (playFile_error_kinds_and_duration demoFS "/tmp/notes.txt").2.1
      { suffix := ".txt", wav := Option.none } (by decide) rfl
  · exact (playFile_error_kinds_and_duration demoFS "/tmp/voice.wav").2.2
      { suffix := ".wav",
        wav := Option.some
          { sampleRate := 22050, channels := 1, sampleWidth := 2,
            nFrames := 44100 } }
      44100 (by decide) rfl rfl
